import Mathlib

/-!
Shallow embedding of `sjs.py` (SJSAutomation: login, sign-in, user-info,
run orchestration).  External effects (HTTP requests, the Selenium browser,
the OCR service) are modelled as oracles supplied through environment
records; each fallible external call is a `Res` value that is either a
result or a raised exception.  Pure string manipulation mirrors the Python
string operations.
-/

namespace SJS

/-- Outcome of an external call: a returned value or a raised exception
(with its message). -/
inductive Res (α : Type) where
  | ok : α → Res α
  | exn : String → Res α
  deriving DecidableEq

/-- Test whether `pat` is a prefix of the character list. -/
def isPrefixList : List Char → List Char → Bool
  | [], _ => true
  | _ :: _, [] => false
  | a :: as, b :: bs => a == b && isPrefixList as bs

/-- Test whether `pat` occurs somewhere in the character list. -/
def containsList (pat : List Char) : List Char → Bool
  | [] => isPrefixList pat []
  | c :: rest => isPrefixList pat (c :: rest) || containsList pat rest

/-- Python `pat in s` substring test. -/
def containsSub (s pat : String) : Bool :=
  containsList pat.data s.data

/-- Left-to-right scan replacing each non-overlapping occurrence of `pat`
by `rep`; the fuel argument (initially the list length, an upper bound on
the number of steps) only makes the recursion structural. -/
def replaceFuel (pat rep : List Char) : Nat → List Char → List Char
  | _, [] => []
  | 0, l => l
  | fuel + 1, c :: rest =>
    if !pat.isEmpty && isPrefixList pat (c :: rest) then
      rep ++ replaceFuel pat rep fuel (List.drop (pat.length - 1) rest)
    else c :: replaceFuel pat rep fuel rest

/-- Python `s.replace(pat, rep)` (replaces every occurrence, scanning
left to right; a Python empty pattern inserts `rep` everywhere, a case no
caller exercises — here an empty pattern leaves `s` unchanged). -/
def pyReplace (s pat rep : String) : String :=
  String.mk (replaceFuel pat.data rep.data s.data.length s.data)

/-- Everything after the first comma (Python `s.split(",", 1)[1]`). -/
def afterComma : List Char → List Char
  | [] => []
  | c :: rest => if c == ',' then rest else afterComma rest

/-- Python `s.lower()` (ASCII case folding; the scanned CJK keywords are
unaffected, as in Python). -/
def pyLower (s : String) : String :=
  String.mk (s.data.map Char.toLower)

/-- Python `s.strip()`: drop whitespace from both ends. -/
def pyStrip (s : String) : String :=
  String.mk (((s.data.dropWhile Char.isWhitespace).reverse.dropWhile Char.isWhitespace).reverse)

/-- Python `sep.join(l)`. -/
def pyJoin (sep : String) : List String → String
  | [] => ""
  | [a] => a
  | a :: rest => a ++ sep ++ pyJoin sep rest

/-- Python `s.center(width, fill)` (CPython layout: the extra fill
character goes to the side determined by `marg &&& width &&& 1`). -/
def pyCenter (s : String) (width : Nat) (fill : Char) : String :=
  if width ≤ s.length then s
  else
    let marg := width - s.length
    let left := marg / 2 + (marg &&& width &&& 1)
    String.mk (List.replicate left fill) ++ s ++ String.mk (List.replicate (marg - left) fill)

/-- Insert into a Python-dict-like association list: overwrite in place on
an existing key, append otherwise. -/
def dictInsert (d : List (String × String)) (k v : String) : List (String × String) :=
  if d.any (fun p => p.1 == k) then d.map (fun p => if p.1 == k then (k, v) else p)
  else d ++ [(k, v)]

/-- Build a Python dict from key/value pairs (last write wins), as the
cookie dict comprehension does. -/
def dictOfList (l : List (String × String)) : List (String × String) :=
  l.foldl (fun d p => dictInsert d p.1 p.2) []

/-- Python `d.update(u)`. -/
def dictUpdate (d u : List (String × String)) : List (String × String) :=
  u.foldl (fun acc p => dictInsert acc p.1 p.2) d

/-- Configuration `SJSConfig` of `sjs.py` (the fields the modelled flow consumes). -/
structure SJSConfig where
  username : String
  password : String
  ocr_service : Option String
  base_url : String
  sign_path : String
  deriving DecidableEq

/-- The mutable per-run fields of `SJSAutomation` (`__init__`). -/
structure State where
  domain : String
  formhash : String
  seccodehash : String
  referer : String
  cookies : List (String × String)
  check_in_status : Nat
  deriving DecidableEq

/-- Model of `SJSAutomation.__init__`: empty tokens, empty cookie dict, status 2
(failure).  `domain` is the hostname already parsed from the base URL. -/
def initState (domain : String) : State :=
  { domain := domain, formhash := "", seccodehash := "", referer := ""
    cookies := [], check_in_status := 2 }

/-- An HTTP response as the script consumes it: `resp.ok`, the
`Content-Type` header, and the body (`text`/`content`). -/
structure HttpResp where
  ok : Bool
  contentType : String
  text : String
  deriving DecidableEq

/-- Outcome of one OCR service call (`requests.post` plus
`resp.json().get("result", "")`). -/
inductive OcrOutcome where
  | exn : String → OcrOutcome
  | notOk : OcrOutcome
  | result : String → OcrOutcome
  deriving DecidableEq

/-- Model of `SJSAutomation._recognize_captcha`: strip the data-URI head, return ""
when no OCR service is configured, swallow call failures into "", else the
stripped `result` field. -/
def _recognize_captcha (cfg : SJSConfig) (call : OcrOutcome) (base64_img : String) : String :=
  let _stripped :=
    if containsSub base64_img "," then String.mk (afterComma base64_img.data)
    else base64_img
  match cfg.ocr_service with
  | none => ""
  | some _ =>
    match call with
    | .exn _ => ""
    | .notOk => ""
    | .result s => pyStrip s

/-- Model of `SJSAutomation._check_captcha`: a guarded GET; exceptions give `false`,
otherwise `resp.ok and "succeed" in resp.text`. -/
def _check_captcha (call : Res HttpResp) : Bool :=
  match call with
  | .exn _ => false
  | .ok r => r.ok && containsSub r.text "succeed"

/-- What the two rendered login pages hand back in `_fetch_login_form`:
the `referer` field value, the `formhash` field value, the id of the
`seccode_…` span, and the browser cookies. -/
structure FormPage where
  refererVal : String
  formhashVal : String
  seccodeId : String
  cookies : List (String × String)
  deriving DecidableEq

/-- Environment (oracles) for one `login()` execution.  Per-attempt calls
are indexed by the attempt number. -/
structure LoginEnv where
  formFetch : Res FormPage
  captchaResp : Nat → Res HttpResp
  ocrCall : Nat → OcrOutcome
  checkResp : Nat → Res HttpResp
  loginResp : Res HttpResp
  sessionCookies : List (String × String)

/-- Model of `SJSAutomation._fetch_login_form`: wholly guarded; on success stores
referer, formhash, the seccode id with its `seccode_` head removed, and
the browser cookie dict. -/
def _fetch_login_form (st : State) (env : LoginEnv) : Bool × State :=
  match env.formFetch with
  | .exn _ => (false, st)
  | .ok page =>
    (true,
      { st with
        referer := page.refererVal
        formhash := page.formhashVal
        seccodehash := pyReplace page.seccodeId "seccode_" ""
        cookies := dictOfList page.cookies })

/-- Network events `login()` can emit, in order. -/
inductive Event where
  | captchaFetch : Nat → Event
  | verifyCall : Nat → Event
  | loginPost : Event
  deriving DecidableEq

/-- The data-URI built from the fetched captcha image bytes. -/
def mkDataUri (content : String) : String :=
  "data:image/jpeg;base64," ++ content

/-- How the bounded captcha loop can end. -/
inductive LoopOut where
  | raised : String → LoopOut
  | exhausted : LoopOut
  | accepted : String → LoopOut
  deriving DecidableEq

/-- The `for _ in range(5)` captcha loop of `login()`: fetch the image
(unguarded), skip non-image responses, OCR the image, and only on a
4-character decode call `_check_captcha`; break on acceptance. -/
def captchaLoop (cfg : SJSConfig) (env : LoginEnv) :
    Nat → Nat → List Event → LoopOut × List Event
  | 0, _, evs => (.exhausted, evs)
  | fuel + 1, i, evs =>
    match env.captchaResp i with
    | .exn m => (.raised m, evs ++ [.captchaFetch i])
    | .ok r =>
      if containsSub r.contentType "image" then
        if (_recognize_captcha cfg (env.ocrCall i) (mkDataUri r.text)).length == 4 then
          if _check_captcha (env.checkResp i) then
            (.accepted (_recognize_captcha cfg (env.ocrCall i) (mkDataUri r.text)),
              evs ++ [.captchaFetch i, .verifyCall i])
          else captchaLoop cfg env fuel (i + 1) (evs ++ [.captchaFetch i, .verifyCall i])
        else captchaLoop cfg env fuel (i + 1) (evs ++ [.captchaFetch i])
      else captchaLoop cfg env fuel (i + 1) (evs ++ [.captchaFetch i])

/-- Result of `login()`: the returned value (or a propagated exception),
the final object state, and the network events issued. -/
structure LoginOut where
  result : Res Bool
  st : State
  events : List Event
  deriving DecidableEq

/-- Model of `SJSAutomation.login`: fetch the form tokens, run the captcha loop,
then POST the credentials (unguarded) and test for the welcome phrase. -/
def login (cfg : SJSConfig) (st0 : State) (env : LoginEnv) : LoginOut :=
  match _fetch_login_form st0 env with
  | (false, st) => ⟨.ok false, st, []⟩
  | (true, st) =>
    match captchaLoop cfg env 5 0 [] with
    | (.raised m, evs) => ⟨.exn m, st, evs⟩
    | (.exhausted, evs) => ⟨.ok false, st, evs⟩
    | (.accepted _, evs) =>
      match env.loginResp with
      | .exn m => ⟨.exn m, st, evs ++ [Event.loginPost]⟩
      | .ok r =>
        if containsSub r.text "欢迎您回来" then
          ⟨.ok true, { st with cookies := dictUpdate st.cookies env.sessionCookies },
            evs ++ [Event.loginPost]⟩
        else ⟨.ok false, st, evs ++ [Event.loginPost]⟩

/-- The text the OCR produced for attempt `i` (empty when the image fetch
raised, so the attempt never reached the OCR). -/
def attemptText (cfg : SJSConfig) (env : LoginEnv) (i : Nat) : String :=
  match env.captchaResp i with
  | .exn _ => ""
  | .ok r => _recognize_captcha cfg (env.ocrCall i) (mkDataUri r.text)

/-- Attempt `i` is accepted: the image came back, the decode has length 4,
and the server verification succeeded. -/
def attemptAccepted (cfg : SJSConfig) (env : LoginEnv) (i : Nat) : Bool :=
  match env.captchaResp i with
  | .exn _ => false
  | .ok r =>
    containsSub r.contentType "image" &&
    (_recognize_captcha cfg (env.ocrCall i) (mkDataUri r.text)).length == 4 &&
    _check_captcha (env.checkResp i)

/-- Number of captcha-image fetches in an event list. -/
def countFetch (evs : List Event) : Nat :=
  (evs.filter fun e => match e with | .captchaFetch _ => true | _ => false).length

/-- Browser actions `do_sign_in` performs, in order (an action is
recorded when it is attempted, whether or not it raises). -/
inductive BAction where
  | navigate : String → BAction
  | deleteAllCookies : BAction
  | addCookie : String → String → String → String → BAction
  | screenshot : String → BAction
  | click : BAction
  | refresh : BAction
  deriving DecidableEq

/-- Environment (oracles) for one `do_sign_in` execution.  `addFailIdx`
is the index of the `add_cookie` call that raises, if any; the three
`pageSource*` fields are the markup read at each decision point. -/
structure SignEnv where
  navHome : Res Unit
  deleteRes : Res Unit
  addFailIdx : Option Nat
  navSign : Res Unit
  waitSign : Res Unit
  pageSource1 : String
  findButton : Res Unit
  shotBefore : Res Unit
  clickRes : Res Unit
  shotAfter : Res Unit
  pageSource2 : String
  refreshRes : Res Unit
  pageSource3 : String

/-- The already-signed markers the script looks for. -/
def alreadySigned (page : String) : Bool :=
  containsSub page "今日已签" || containsSub page "您今天已经签到过了"

/-- The sign-in page URL. -/
def signUrl (cfg : SJSConfig) : String :=
  cfg.base_url ++ cfg.sign_path

/-- Result of `do_sign_in`: returned boolean, final state, browser
actions performed, and whether the `except` handler ran. -/
structure SignResult where
  result : Bool
  st : State
  trace : List BAction
  exnCaught : Bool
  deriving DecidableEq

/-- The part of `do_sign_in` from the sign-page navigation on: wait for
the button, classify the markup, click, re-check, refresh and re-check
once more.  Its trace is relative to (appended after) the cookie
injection. -/
def signPhase2 (cfg : SJSConfig) (st : State) (env : SignEnv) : SignResult :=
  match env.navSign with
  | .exn _ => ⟨false, { st with check_in_status := 2 }, [.navigate (signUrl cfg)], true⟩
  | .ok _ =>
  match env.waitSign with
  | .exn _ => ⟨false, { st with check_in_status := 2 }, [.navigate (signUrl cfg)], true⟩
  | .ok _ =>
  if alreadySigned env.pageSource1 then
    ⟨true, { st with check_in_status := 0 }, [.navigate (signUrl cfg)], false⟩
  else
  match env.findButton with
  | .exn _ => ⟨false, { st with check_in_status := 2 }, [.navigate (signUrl cfg)], true⟩
  | .ok _ =>
  match env.shotBefore with
  | .exn _ =>
    ⟨false, { st with check_in_status := 2 },
      [.navigate (signUrl cfg), .screenshot "before_sign.png"], true⟩
  | .ok _ =>
  match env.clickRes with
  | .exn _ =>
    ⟨false, { st with check_in_status := 2 },
      [.navigate (signUrl cfg), .screenshot "before_sign.png", .click], true⟩
  | .ok _ =>
  match env.shotAfter with
  | .exn _ =>
    ⟨false, { st with check_in_status := 2 },
      [.navigate (signUrl cfg), .screenshot "before_sign.png", .click,
        .screenshot "after_sign.png"], true⟩
  | .ok _ =>
  if alreadySigned env.pageSource2 then
    ⟨true, { st with check_in_status := 0 },
      [.navigate (signUrl cfg), .screenshot "before_sign.png", .click,
        .screenshot "after_sign.png"], false⟩
  else if containsSub env.pageSource2 "签到成功" then
    ⟨true, { st with check_in_status := 1 },
      [.navigate (signUrl cfg), .screenshot "before_sign.png", .click,
        .screenshot "after_sign.png"], false⟩
  else
  match env.refreshRes with
  | .exn _ =>
    ⟨false, { st with check_in_status := 2 },
      [.navigate (signUrl cfg), .screenshot "before_sign.png", .click,
        .screenshot "after_sign.png", .refresh], true⟩
  | .ok _ =>
  if alreadySigned env.pageSource3 then
    ⟨true, { st with check_in_status := 0 },
      [.navigate (signUrl cfg), .screenshot "before_sign.png", .click,
        .screenshot "after_sign.png", .refresh], false⟩
  else
    ⟨false, { st with check_in_status := 2 },
      [.navigate (signUrl cfg), .screenshot "before_sign.png", .click,
        .screenshot "after_sign.png", .refresh], false⟩

/-- The cookie-injection actions for a cookie dict. -/
def injectActions (domain : String) (cookies : List (String × String)) : List BAction :=
  cookies.map fun p => .addCookie p.1 p.2 "/" domain

/-- Model of `SJSAutomation.do_sign_in`: navigate to the origin, clear the browser
cookies, inject the session cookies (domain + root path), then run the
sign-in interaction; the whole body is inside `try/except`, whose handler
prints, sets status 2 and returns `False` (it takes no screenshot). -/
def do_sign_in (cfg : SJSConfig) (st : State) (env : SignEnv) : SignResult :=
  match env.navHome with
  | .exn _ => ⟨false, { st with check_in_status := 2 }, [.navigate cfg.base_url], true⟩
  | .ok _ =>
  match env.deleteRes with
  | .exn _ =>
    ⟨false, { st with check_in_status := 2 },
      [.navigate cfg.base_url, .deleteAllCookies], true⟩
  | .ok _ =>
  match env.addFailIdx with
  | some k =>
    ⟨false, { st with check_in_status := 2 },
      .navigate cfg.base_url :: .deleteAllCookies ::
        injectActions st.domain (st.cookies.take (k + 1)), true⟩
  | none =>
    let r := signPhase2 cfg st env
    { r with
      trace := .navigate cfg.base_url :: .deleteAllCookies ::
        injectActions st.domain st.cookies ++ r.trace }

/-- Environment (oracles) for one `fetch_user_info` execution.
`fieldVals` lumps the five `get_attribute` reads on the sign page;
`nameMatches` is, per username XPath, the list of matched element texts;
`pstsTexts` / `broadTexts` are the stat texts of the primary container
scan and of the fallback broad scan (exceptions model failed lookups). -/
structure InfoEnv where
  navSign : Res Unit
  waitNum : Res Unit
  fieldVals : Res (String × String × String × String × String)
  pageContent : String
  navProfile : Res Unit
  waitCt : Res Unit
  shotProfile : Res Unit
  nameMatches : List (List String)
  pstsTexts : Res (List String)
  broadTexts : Res (List String)

/-- The four keyword-scanned statistics. -/
structure Stats where
  jf : String
  ww : String
  cp : String
  gx : String
  deriving DecidableEq

/-- All four statistics at the "unknown" sentinel. -/
def unknownStats : Stats :=
  ⟨"未知", "未知", "未知", "未知"⟩

/-- The keyword scan loop over stat element texts: membership is tested
on the lowercased text, the original text is stored; `elif` chains make
the four branches mutually exclusive per element. -/
def scanStats : Stats → List String → Stats
  | acc, [] => acc
  | acc, t :: rest =>
    scanStats
      (if containsSub (pyLower t) "积分" then { acc with jf := t }
       else if containsSub (pyLower t) "威望" then { acc with ww := t }
       else if containsSub (pyLower t) "车票" then { acc with cp := t }
       else if containsSub (pyLower t) "贡献" then { acc with gx := t }
       else acc) rest

/-- The nested try/except statistics step: scan the primary container;
if locating it raised, scan the fallback; if that raised too, keep every
sentinel.  Never raises. -/
def statsStep (env : InfoEnv) : Stats :=
  match env.pstsTexts with
  | .ok texts => scanStats unknownStats texts
  | .exn _ =>
    match env.broadTexts with
    | .ok texts => scanStats unknownStats texts
    | .exn _ => unknownStats

/-- The texts the statistics step actually scans. -/
def scannedTexts (env : InfoEnv) : List String :=
  match env.pstsTexts with
  | .ok texts => texts
  | .exn _ =>
    match env.broadTexts with
    | .ok texts => texts
    | .exn _ => []

/-- First XPath strategy with a non-empty element list gives the (stripped)
text of its first element. -/
def firstNameMatch : List (List String) → Option String
  | [] => none
  | [] :: rest => firstNameMatch rest
  | (t :: _) :: _ => some (pyStrip t)

/-- Username resolution: first match, with the fixed placeholder when no
strategy matched or the match stripped to the empty string. -/
def resolveName (ms : List (List String)) : String :=
  match firstNameMatch ms with
  | some s => if s = "" then "未知用户" else s
  | none => "未知用户"

/-- The status-label list of `fetch_user_info`. -/
def check_in_labels : List String :=
  ["已签到", "签到成功", "签到失败"]

/-- Model of `SJSAutomation.fetch_user_info`: read the five sign-page fields,
re-confirm the check-in status from the markup, visit the profile page,
resolve the username and the four statistics, and compose the report;
the whole body is guarded, returning `None` on any exception (and an
out-of-range label index would raise into that same handler). -/
def fetch_user_info (st : State) (env : InfoEnv) : Option String × State :=
  match env.navSign with
  | .exn _ => (none, st)
  | .ok _ =>
  match env.waitNum with
  | .exn _ => (none, st)
  | .ok _ =>
  match env.fieldVals with
  | .exn _ => (none, st)
  | .ok (qiandao_num, lxdays, lxtdays, lxlevel, lxreward) =>
  let st :=
    if alreadySigned env.pageContent then { st with check_in_status := 0 }
    else if containsSub env.pageContent "签到成功" then { st with check_in_status := 1 }
    else st
  let lxqiandao_content :=
    "签到排名：" ++ qiandao_num ++ "\n" ++
    "签到等级：Lv." ++ lxlevel ++ "\n" ++
    "连续签到：" ++ lxdays ++ " 天\n" ++
    "签到总数：" ++ lxtdays ++ " 天\n" ++
    "签到奖励：" ++ lxreward ++ "\n"
  match env.navProfile with
  | .exn _ => (none, st)
  | .ok _ =>
  match env.waitCt with
  | .exn _ => (none, st)
  | .ok _ =>
  match env.shotProfile with
  | .exn _ => (none, st)
  | .ok _ =>
  let xm := resolveName env.nameMatches
  let stats := statsStep env
  let xm2 := pyCenter ("账户【" ++ xm ++ "】") 24 '='
  match check_in_labels[st.check_in_status]? with
  | none => (none, st)
  | some lbl =>
    let info_text :=
      xm2 ++ "\n" ++
      "签到状态: " ++ lbl ++ " \n" ++
      lxqiandao_content ++ " \n" ++
      "当前积分: " ++ stats.jf ++ "\n" ++
      "当前威望: " ++ stats.ww ++ "\n" ++
      "当前车票: " ++ stats.cp ++ "\n" ++
      "当前贡献: " ++ stats.gx ++ "\n\n"
    (some info_text, st)

/-- One notification handed to the `send` collaborator. -/
structure Send where
  title : String
  body : String
  deriving DecidableEq

/-- Environment for one `run()` execution. -/
structure RunEnv where
  loginEnv : LoginEnv
  driverStart : Res Unit
  signEnv : SignEnv
  infoEnv : InfoEnv
  date : String

/-- The three accumulated report lines of the success branch of `run`:
the fixed login-success line, the sign-in outcome line, and the stripped
user info (or its fallback warning line). -/
def reportLines (cfg : SJSConfig) (st : State) (env : RunEnv) : List String :=
  ["✔️ 登录成功",
   if (do_sign_in cfg st env.signEnv).result then "✔️ 签到操作完成" else "❌ 签到操作失败",
   match (fetch_user_info (do_sign_in cfg st env.signEnv).st env.infoEnv).1 with
   | some t => pyStrip t
   | none => "⚠️ 未能获取用户信息，请检查日志输出"]

/-- The notification body of the success branch of `run`: the non-empty
report lines joined with newlines and stripped. -/
def reportContent (cfg : SJSConfig) (st : State) (env : RunEnv) : String :=
  pyStrip (pyJoin "\n" ((reportLines cfg st env).filter fun l => l ≠ ""))

/-- Model of `SJSAutomation.run`: login (exceptions propagate), notify-and-stop on
login failure; otherwise start the browser (exceptions propagate), sign
in, fetch the user info, and send the accumulated report when its
stripped join is non-empty. -/
def run (cfg : SJSConfig) (st0 : State) (env : RunEnv) : Res Unit × List Send :=
  match login cfg st0 env.loginEnv with
  | ⟨.exn m, _, _⟩ => (.exn m, [])
  | ⟨.ok false, _, _⟩ =>
    (.ok (), [⟨"司机社签到 - " ++ env.date, "❌ 登录失败，脚本结束"⟩])
  | ⟨.ok true, st, _⟩ =>
    match env.driverStart with
    | .exn m => (.exn m, [])
    | .ok _ =>
      if reportContent cfg st env = "" then (.ok (), [])
      else (.ok (), [⟨"司机社签到 - " ++ env.date, reportContent cfg st env⟩])

/-- Fixture: a configuration with an OCR service configured. -/
def cfgA : SJSConfig :=
  ⟨"user", "pass", some "http://127.0.0.1:9898/ocr", "https://xsijishe.com", "/k_misign-sign.html"⟩

/-- Fixture: a configuration with no OCR service (degraded mode). -/
def cfgNoOcr : SJSConfig :=
  ⟨"user", "pass", none, "https://xsijishe.com", "/k_misign-sign.html"⟩

/-- Fixture: a rendered login-form page. -/
def pageA : FormPage :=
  ⟨"https://xsijishe.com/member.php?mod=logging", "fh19ab", "seccode_cSA1x2", [("PHPSESSID", "s1")]⟩

/-- Fixture: the same login-form page with an empty `formhash` value. -/
def pageEmptyHash : FormPage :=
  ⟨"https://xsijishe.com/member.php?mod=logging", "", "seccode_cSA1x2", [("PHPSESSID", "s1")]⟩

/-- Fixture: a captcha image response. -/
def imgRespA : HttpResp := ⟨true, "image/png", "IMG"⟩

/-- Fixture: a non-image captcha response. -/
def htmlRespA : HttpResp := ⟨true, "text/html", "oops"⟩

/-- Fixture: a verification response carrying the success marker. -/
def checkOkResp : HttpResp := ⟨true, "text/xml", "<root>succeed</root>"⟩

/-- Fixture: a login response carrying the welcome phrase. -/
def welcomeResp : HttpResp := ⟨true, "text/html", "aa 欢迎您回来 bb"⟩

/-- Fixture: login environment where every attempt decodes to a
4-character text and verifies, and the submission succeeds. -/
def envAccept : LoginEnv :=
  ⟨.ok pageA, fun _ => .ok imgRespA, fun _ => .result "abcd",
    fun _ => .ok checkOkResp, .ok welcomeResp, [("auth", "tok")]⟩

/-- Fixture: every captcha image fetch returns non-image content. -/
def envNonImage : LoginEnv := { envAccept with captchaResp := fun _ => .ok htmlRespA }

/-- Fixture: every captcha image fetch raises. -/
def envFetchExn : LoginEnv := { envAccept with captchaResp := fun _ => .exn "ConnectionError" }

/-- Fixture: the login form page carries an empty anti-forgery token. -/
def envEmptyHash : LoginEnv := { envAccept with formFetch := .ok pageEmptyHash }

/-- Fixture: the OCR always answers with the empty string. -/
def envOcrEmpty : LoginEnv := { envAccept with ocrCall := fun _ => .result "" }

/-- Fixture: the OCR always answers with a 3-character string. -/
def envOcrShort : LoginEnv := { envAccept with ocrCall := fun _ => .result "abc" }

/-- Fixture: a sign-in environment where every step succeeds and the page
shows the just-signed marker after the click. -/
def signEnvA : SignEnv :=
  ⟨.ok (), .ok (), none, .ok (), .ok (), "<div id=JD_sign>page</div>", .ok (), .ok (),
    .ok (), .ok (), "xx 签到成功 yy", .ok (), "zz"⟩

/-- Fixture: the first navigation of the sign-in sequence raises. -/
def signEnvNavExn : SignEnv := { signEnvA with navHome := .exn "net::ERR_TIMED_OUT" }

/-- Fixture: a state holding the two-cookie mapping of the Session Bridge
scenario. -/
def stAB : State :=
  { initState "xsijishe.com" with cookies := [("a", "1"), ("b", "2")] }

/-- Fixture: an info environment where everything succeeds and only the
points statistic is present. -/
def infoEnvA : InfoEnv :=
  ⟨.ok (), .ok (), .ok ("3", "4", "5", "6", "7"), "xx 今日已签 yy", .ok (), .ok (), .ok (),
    [[], ["driver "]], .ok ["积分 100"], .exn "no broad scan"⟩

/-- Fixture: a run environment whose login accepts and whose sign-in and
info steps succeed. -/
def runEnvA : RunEnv := ⟨envAccept, .ok (), signEnvA, infoEnvA, "2026-10-12"⟩

/-- Fixture: a run environment whose captcha image fetch raises inside
`login()`. -/
def runEnvExn : RunEnv := ⟨envFetchExn, .ok (), signEnvA, infoEnvA, "2026-10-12"⟩

theorem captchaLoop_verify_mem (cfg : SJSConfig) (env : LoginEnv) :
    ∀ fuel i evs j, Event.verifyCall j ∈ (captchaLoop cfg env fuel i evs).2 →
      Event.verifyCall j ∈ evs ∨ (attemptText cfg env j).length = 4 := by
  intro fuel
  induction fuel with
  | zero => intro i evs j h; exact Or.inl h
  | succ n ih =>
    intro i evs j h
    rw [captchaLoop] at h
    split at h
    next m heq =>
      simp only [List.mem_append, List.mem_singleton] at h
      rcases h with h | h
      · exact Or.inl h
      · exact absurd h (by simp)
    next r heq =>
      split at h
      next himg =>
        split at h
        next hlen =>
          split at h
          next hcheck =>
            simp only [List.mem_append, List.mem_cons, List.mem_singleton,
              List.not_mem_nil, or_false] at h
            rcases h with h | h | h
            · exact Or.inl h
            · exact absurd h (by simp)
            · injection h with h2
              subst h2
              refine Or.inr ?_
              simp only [attemptText, heq]
              simpa only [beq_iff_eq] using hlen
          next hcheck =>
            rcases ih _ _ _ h with h1 | h1
            · simp only [List.mem_append, List.mem_cons, List.mem_singleton,
                List.not_mem_nil, or_false] at h1
              rcases h1 with h1 | h1 | h1
              · exact Or.inl h1
              · exact absurd h1 (by simp)
              · injection h1 with h2
                subst h2
                refine Or.inr ?_
                simp only [attemptText, heq]
                simpa only [beq_iff_eq] using hlen
            · exact Or.inr h1
        next hlen =>
          rcases ih _ _ _ h with h1 | h1
          · simp only [List.mem_append, List.mem_singleton] at h1
            rcases h1 with h1 | h1
            · exact Or.inl h1
            · exact absurd h1 (by simp)
          · exact Or.inr h1
      next himg =>
        rcases ih _ _ _ h with h1 | h1
        · simp only [List.mem_append, List.mem_singleton] at h1
          rcases h1 with h1 | h1
          · exact Or.inl h1
          · exact absurd h1 (by simp)
        · exact Or.inr h1

theorem countFetch_append (a b : List Event) :
    countFetch (a ++ b) = countFetch a + countFetch b := by
  simp [countFetch, List.filter_append]

theorem countFetch_fetch (i : Nat) : countFetch [Event.captchaFetch i] = 1 := rfl

theorem countFetch_fetch_verify (i : Nat) :
    countFetch [Event.captchaFetch i, Event.verifyCall i] = 1 := rfl

theorem countFetch_post : countFetch [Event.loginPost] = 0 := rfl

theorem captchaLoop_fetch_le (cfg : SJSConfig) (env : LoginEnv) :
    ∀ fuel i evs, countFetch (captchaLoop cfg env fuel i evs).2 ≤ countFetch evs + fuel := by
  intro fuel
  induction fuel with
  | zero => intro i evs; simp [captchaLoop]
  | succ n ih =>
    intro i evs
    rw [captchaLoop]
    split
    next m heq =>
      simp only [countFetch_append, countFetch_fetch]
      omega
    next r heq =>
      split
      next himg =>
        split
        next hlen =>
          split
          next hcheck =>
            simp only [countFetch_append, countFetch_fetch_verify]
            omega
          next hcheck =>
            have := ih (i + 1) (evs ++ [Event.captchaFetch i, Event.verifyCall i])
            rw [countFetch_append, countFetch_fetch_verify] at this
            omega
        next hlen =>
          have := ih (i + 1) (evs ++ [Event.captchaFetch i])
          rw [countFetch_append, countFetch_fetch] at this
          omega
      next himg =>
        have := ih (i + 1) (evs ++ [Event.captchaFetch i])
        rw [countFetch_append, countFetch_fetch] at this
        omega

theorem captchaLoop_exhaust (cfg : SJSConfig) (env : LoginEnv) :
    ∀ fuel i evs,
      (∀ j, i ≤ j → j < i + fuel →
        (∃ r, env.captchaResp j = .ok r) ∧ attemptAccepted cfg env j = false) →
      (captchaLoop cfg env fuel i evs).1 = .exhausted := by
  intro fuel
  induction fuel with
  | zero => intro i evs _; rfl
  | succ n ih =>
    intro i evs hrej
    obtain ⟨⟨r, hr⟩, hacc⟩ := hrej i (le_refl i) (by omega)
    rw [captchaLoop]
    split
    next m heq => rw [hr] at heq; cases heq
    next r2 heq =>
      rw [hr] at heq
      injection heq with heq
      subst heq
      split
      next himg =>
        split
        next hlen =>
          split
          next hcheck =>
            simp [attemptAccepted, hr, himg, hlen, hcheck] at hacc
          next hcheck =>
            exact ih (i + 1) _ fun j h1 h2 => hrej j (by omega) (by omega)
        next hlen =>
          exact ih (i + 1) _ fun j h1 h2 => hrej j (by omega) (by omega)
      next himg =>
        exact ih (i + 1) _ fun j h1 h2 => hrej j (by omega) (by omega)

theorem captchaLoop_no_post (cfg : SJSConfig) (env : LoginEnv) :
    ∀ fuel i evs, Event.loginPost ∈ (captchaLoop cfg env fuel i evs).2 →
      Event.loginPost ∈ evs := by
  intro fuel
  induction fuel with
  | zero => intro i evs h; exact h
  | succ n ih =>
    intro i evs h
    rw [captchaLoop] at h
    split at h
    next m heq =>
      simp only [List.mem_append, List.mem_singleton] at h
      rcases h with h | h
      · exact h
      · exact absurd h (by simp)
    next r heq =>
      split at h
      next himg =>
        split at h
        next hlen =>
          split at h
          next hcheck =>
            simp only [List.mem_append, List.mem_cons, List.mem_singleton,
              List.not_mem_nil, or_false] at h
            rcases h with h | h | h
            · exact h
            · exact absurd h (by simp)
            · exact absurd h (by simp)
          next hcheck =>
            have := ih _ _ h
            simp only [List.mem_append, List.mem_cons, List.mem_singleton,
              List.not_mem_nil, or_false] at this
            rcases this with h1 | h1 | h1
            · exact h1
            · exact absurd h1 (by simp)
            · exact absurd h1 (by simp)
        next hlen =>
          have := ih _ _ h
          simp only [List.mem_append, List.mem_singleton] at this
          rcases this with h1 | h1
          · exact h1
          · exact absurd h1 (by simp)
      next himg =>
        have := ih _ _ h
        simp only [List.mem_append, List.mem_singleton] at this
        rcases this with h1 | h1
        · exact h1
        · exact absurd h1 (by simp)

theorem captchaLoop_raised (cfg : SJSConfig) (env : LoginEnv) :
    ∀ fuel i evs m, (captchaLoop cfg env fuel i evs).1 = .raised m →
      ∃ j, i ≤ j ∧ j < i + fuel ∧ env.captchaResp j = .exn m := by
  intro fuel
  induction fuel with
  | zero => intro i evs m h; cases h
  | succ n ih =>
    intro i evs m h
    rw [captchaLoop] at h
    split at h
    next m2 heq =>
      injection h with h
      subst h
      exact ⟨i, le_refl i, by omega, heq⟩
    next r heq =>
      split at h
      next himg =>
        split at h
        next hlen =>
          split at h
          next hcheck => cases h
          next hcheck =>
            obtain ⟨j, h1, h2, h3⟩ := ih _ _ _ h
            exact ⟨j, by omega, by omega, h3⟩
        next hlen =>
          obtain ⟨j, h1, h2, h3⟩ := ih _ _ _ h
          exact ⟨j, by omega, by omega, h3⟩
      next himg =>
        obtain ⟨j, h1, h2, h3⟩ := ih _ _ _ h
        exact ⟨j, by omega, by omega, h3⟩

theorem login_events_split (cfg : SJSConfig) (st : State) (env : LoginEnv) :
    (login cfg st env).events = [] ∨
    (login cfg st env).events = (captchaLoop cfg env 5 0 []).2 ∨
    (login cfg st env).events = (captchaLoop cfg env 5 0 []).2 ++ [Event.loginPost] := by
  rcases hf : _fetch_login_form st env with ⟨b, st1⟩
  cases b with
  | false => left; simp [login, hf]
  | true =>
    rcases hl : captchaLoop cfg env 5 0 [] with ⟨out, evs⟩
    cases out with
    | raised m => right; left; simp [login, hf, hl]
    | exhausted => right; left; simp [login, hf, hl]
    | accepted s =>
      cases hr : env.loginResp with
      | exn m => right; right; simp [login, hf, hl, hr]
      | ok r =>
        by_cases hw : containsSub r.text "欢迎您回来"
        · right; right; simp [login, hf, hl, hr, hw]
        · right; right; simp [login, hf, hl, hr, hw]

/-- Claim C1: in the captcha retry loop of `login()`, the server-side
verification endpoint is called for an attempt only when that attempt's
decoded captcha text has length exactly 4; every decode of a different
length skips verification and the loop proceeds to the next retry. -/
theorem C1_verify_only_on_length_four (cfg : SJSConfig) (st : State) (env : LoginEnv) (i : Nat)
    (h : Event.verifyCall i ∈ (login cfg st env).events) :
    (attemptText cfg env i).length = 4 := by
  rcases login_events_split cfg st env with he | he | he
  · rw [he] at h; cases h
  · rw [he] at h
    rcases captchaLoop_verify_mem cfg env 5 0 [] i h with h1 | h1
    · cases h1
    · exact h1
  · rw [he] at h
    simp only [List.mem_append, List.mem_singleton] at h
    rcases h with h | h
    · rcases captchaLoop_verify_mem cfg env 5 0 [] i h with h1 | h1
      · cases h1
      · exact h1
    · exact absurd h (by simp)

/-- Witness for C1: in a concrete accepting environment the verification
call of attempt 0 occurs and the decoded text indeed has length 4. -/
theorem C1_verify_only_on_length_four_witness :
    (attemptText cfgA envAccept 0).length = 4 :=
  C1_verify_only_on_length_four cfgA (initState "xsijishe.com") envAccept 0 (by decide)

/-- Claim C2: the captcha retry loop performs at most 5 iterations (at
most 5 captcha-image fetches happen, non-image responses included), and
when every attempt ends unaccepted `login()` returns `false` rather than
raising. -/
theorem C2_loop_bounded_and_returns_false (cfg : SJSConfig) (st : State) (env : LoginEnv) :
    countFetch (login cfg st env).events ≤ 5 ∧
    ((∀ j, j < 5 → (∃ r, env.captchaResp j = .ok r) ∧ attemptAccepted cfg env j = false) →
      (login cfg st env).result = .ok false) := by
  constructor
  · have hle := captchaLoop_fetch_le cfg env 5 0 []
    rcases login_events_split cfg st env with he | he | he
    · rw [he]; simp [countFetch]
    · rw [he]
      simpa [countFetch] using hle
    · rw [he, countFetch_append, countFetch_post]
      simp only [countFetch, List.filter_nil, List.length_nil] at hle ⊢
      omega
  · intro hrej
    have hexh := captchaLoop_exhaust cfg env 5 0 [] fun j h1 h2 => hrej j (by omega)
    rcases hf : _fetch_login_form st env with ⟨b, st1⟩
    cases b with
    | false => simp [login, hf]
    | true =>
      rcases hl : captchaLoop cfg env 5 0 [] with ⟨out, evs⟩
      rw [hl] at hexh
      simp only at hexh
      subst hexh
      simp [login, hf, hl]

/-- Witness for C2: with every image fetch answering non-image content,
no attempt is accepted, the loop uses exactly its 5 attempts, and login
returns `false`. -/
theorem C2_loop_bounded_and_returns_false_witness :
    countFetch (login cfgA (initState "xsijishe.com") envNonImage).events = 5 ∧
    (login cfgA (initState "xsijishe.com") envNonImage).result = .ok false :=
  ⟨by decide,
   (C2_loop_bounded_and_returns_false cfgA (initState "xsijishe.com") envNonImage).2
     (fun j _ => ⟨⟨htmlRespA, rfl⟩, rfl⟩)⟩

/-- Claim C3 counterexample: the captcha-image fetch inside `login()` is
not guarded; with the form fetch succeeding and the first image fetch
raising, `login()` propagates the exception instead of returning
`false`. -/
theorem C3_counterexample :
    (login cfgA (initState "xsijishe.com") envFetchExn).result = .exn "ConnectionError" := by
  decide

/-- Claim C3 (amended): the token fetch, the OCR call and the
verification call are guarded and never propagate; if `login()` does
propagate an exception, it was raised by the unguarded captcha-image
fetch of one of the 5 attempts or by the unguarded credential-submission
POST. -/
theorem C3_amended_exception_sources (cfg : SJSConfig) (st : State) (env : LoginEnv)
    (m : String) (h : (login cfg st env).result = .exn m) :
    (∃ i, i < 5 ∧ env.captchaResp i = .exn m) ∨ env.loginResp = .exn m := by
  rcases hf : _fetch_login_form st env with ⟨b, st1⟩
  cases b with
  | false => simp [login, hf] at h
  | true =>
    rcases hl : captchaLoop cfg env 5 0 [] with ⟨out, evs⟩
    cases out with
    | raised m2 =>
      simp only [login, hf, hl] at h
      injection h with h
      subst h
      obtain ⟨j, h1, h2, h3⟩ := captchaLoop_raised cfg env 5 0 [] m2 (by rw [hl])
      exact Or.inl ⟨j, by omega, h3⟩
    | exhausted => simp [login, hf, hl] at h
    | accepted s =>
      cases hr : env.loginResp with
      | exn m2 =>
        simp only [login, hf, hl, hr] at h
        injection h with h
        subst h
        exact Or.inr rfl
      | ok r =>
        by_cases hw : containsSub r.text "欢迎您回来"
        · simp [login, hf, hl, hr, hw] at h
        · simp [login, hf, hl, hr, hw] at h

/-- Witness for the amended C3 at the concrete raising environment. -/
theorem C3_amended_exception_sources_witness :
    (∃ i, i < 5 ∧ envFetchExn.captchaResp i = .exn "ConnectionError") ∨
      envFetchExn.loginResp = .exn "ConnectionError" :=
  C3_amended_exception_sources cfgA (initState "xsijishe.com") envFetchExn
    "ConnectionError" (by decide)

/-- Claim C4: if the captcha solver never resolves (the recognizer
returns the empty string on every call) then `login()` returns `false`
and the credential-submission POST is never issued. -/
theorem C4_unresolved_ocr_no_submit (cfg : SJSConfig) (st : State) (env : LoginEnv)
    (hocr : ∀ i s, _recognize_captcha cfg (env.ocrCall i) s = "")
    (hnet : ∀ j, j < 5 → ∃ r, env.captchaResp j = .ok r) :
    (login cfg st env).result = .ok false ∧
      Event.loginPost ∉ (login cfg st env).events := by
  have hrej : ∀ j, j < 5 →
      (∃ r, env.captchaResp j = .ok r) ∧ attemptAccepted cfg env j = false := by
    intro j hj
    refine ⟨hnet j hj, ?_⟩
    obtain ⟨r, hr⟩ := hnet j hj
    simp [attemptAccepted, hr, hocr j (mkDataUri r.text)]
  have hexh := captchaLoop_exhaust cfg env 5 0 [] fun j h1 h2 => hrej j (by omega)
  rcases hf : _fetch_login_form st env with ⟨b, st1⟩
  cases b with
  | false =>
    constructor
    · simp [login, hf]
    · simp [login, hf]
  | true =>
    rcases hl : captchaLoop cfg env 5 0 [] with ⟨out, evs⟩
    rw [hl] at hexh
    simp only at hexh
    subst hexh
    constructor
    · simp [login, hf, hl]
    · simp only [login, hf, hl]
      intro hmem
      have := captchaLoop_no_post cfg env 5 0 [] (by rw [hl]; exact hmem)
      cases this

/-- Witness for C4: with no OCR service configured the recognizer always
yields the empty string, login fails, and no POST is issued. -/
theorem C4_unresolved_ocr_no_submit_witness :
    (login cfgNoOcr (initState "xsijishe.com") envAccept).result = .ok false ∧
      Event.loginPost ∉ (login cfgNoOcr (initState "xsijishe.com") envAccept).events :=
  C4_unresolved_ocr_no_submit cfgNoOcr (initState "xsijishe.com") envAccept
    (fun _ _ => rfl) (fun _ _ => ⟨imgRespA, rfl⟩)

/-- Claim C8 counterexample: the code never checks the anti-forgery token
for non-emptiness; with a rendered page whose `formhash` value is empty
the credential POST is still issued while the stored token is the empty
string. -/
theorem C8_counterexample :
    Event.loginPost ∈ (login cfgA (initState "xsijishe.com") envEmptyHash).events ∧
    (login cfgA (initState "xsijishe.com") envEmptyHash).st.formhash = "" := by
  decide

/-- Claim C8 (amended): the credential POST is issued only after
`_fetch_login_form` succeeded, and at submission time the token and the
captcha identifier are exactly the values the rendered page supplied
(which the code never checks for non-emptiness). -/
theorem C8_amended_post_after_form_fetch (cfg : SJSConfig) (st : State) (env : LoginEnv)
    (h : Event.loginPost ∈ (login cfg st env).events) :
    ∃ page, env.formFetch = .ok page ∧
      (login cfg st env).st.formhash = page.formhashVal ∧
      (login cfg st env).st.seccodehash = pyReplace page.seccodeId "seccode_" "" := by
  cases hf : env.formFetch with
  | exn m =>
    have hfe : _fetch_login_form st env = (false, st) := by simp [_fetch_login_form, hf]
    rw [login, hfe] at h
    cases h
  | ok page =>
    refine ⟨page, rfl, ?_⟩
    have hfe : _fetch_login_form st env =
        (true,
          { st with
            referer := page.refererVal
            formhash := page.formhashVal
            seccodehash := pyReplace page.seccodeId "seccode_" ""
            cookies := dictOfList page.cookies }) := by
      simp [_fetch_login_form, hf]
    rcases hl : captchaLoop cfg env 5 0 [] with ⟨out, evs⟩
    cases out with
    | raised m =>
      rw [login, hfe, hl] at h
      have := captchaLoop_no_post cfg env 5 0 [] (by rw [hl]; exact h)
      cases this
    | exhausted =>
      rw [login, hfe, hl] at h
      have := captchaLoop_no_post cfg env 5 0 [] (by rw [hl]; exact h)
      cases this
    | accepted s =>
      cases hr : env.loginResp with
      | exn m => simp [login, hfe, hl, hr]
      | ok r =>
        by_cases hw : containsSub r.text "欢迎您回来"
        · simp [login, hfe, hl, hr, hw]
        · simp [login, hfe, hl, hr, hw]

theorem signPhase2_trace_head (cfg : SJSConfig) (st : State) (env : SignEnv) :
    ∃ rest, (signPhase2 cfg st env).trace = .navigate (signUrl cfg) :: rest := by
  unfold signPhase2
  repeat' split
  all_goals exact ⟨_, rfl⟩

/-- Claim C5: with the pre-navigation steps raising nothing, `do_sign_in`
first navigates (unauthenticated) to the origin, clears every pre-existing
cookie, injects exactly the held cookie mapping — each cookie with the
target domain and root path "/" — and only then performs the first
authenticated navigation, to the sign-in page. -/
theorem C5_session_bridge_cookie_injection (cfg : SJSConfig) (st : State) (env : SignEnv)
    (h1 : env.navHome = .ok ()) (h2 : env.deleteRes = .ok ()) (h3 : env.addFailIdx = none) :
    (do_sign_in cfg st env).trace.take (st.cookies.length + 3) =
      .navigate cfg.base_url :: .deleteAllCookies ::
        (injectActions st.domain st.cookies ++ [.navigate (signUrl cfg)]) := by
  obtain ⟨rest, hrest⟩ := signPhase2_trace_head cfg st env
  have htr : (do_sign_in cfg st env).trace =
      .navigate cfg.base_url :: .deleteAllCookies ::
        (injectActions st.domain st.cookies ++ (.navigate (signUrl cfg) :: rest)) := by
    simp [do_sign_in, h1, h2, h3, hrest]
  rw [htr]
  have hsplit : BAction.navigate cfg.base_url :: BAction.deleteAllCookies ::
      (injectActions st.domain st.cookies ++ (BAction.navigate (signUrl cfg) :: rest)) =
      (BAction.navigate cfg.base_url :: BAction.deleteAllCookies ::
        (injectActions st.domain st.cookies ++ [BAction.navigate (signUrl cfg)])) ++ rest := by
    simp
  rw [hsplit, List.take_left']
  simp only [List.length_cons, List.length_append, List.length_singleton, List.length_nil,
    injectActions, List.length_map]

/-- Witness for C5 at the two-cookie mapping of the spec's scenario. -/
theorem C5_session_bridge_cookie_injection_witness :
    (do_sign_in cfgA stAB signEnvA).trace.take (stAB.cookies.length + 3) =
      .navigate cfgA.base_url :: .deleteAllCookies ::
        (injectActions stAB.domain stAB.cookies ++ [.navigate (signUrl cfgA)]) :=
  C5_session_bridge_cookie_injection cfgA stAB signEnvA rfl rfl rfl

theorem signPhase2_props (cfg : SJSConfig) (st : State) (env : SignEnv) :
    ((signPhase2 cfg st env).exnCaught = true →
      (signPhase2 cfg st env).result = false ∧
      (signPhase2 cfg st env).st.check_in_status = 2) ∧
    (∀ f, BAction.screenshot f ∈ (signPhase2 cfg st env).trace →
      f = "before_sign.png" ∨ f = "after_sign.png") := by
  unfold signPhase2
  repeat' split
  all_goals refine ⟨fun h => ?_, fun f hf => ?_⟩
  all_goals first
    | exact ⟨rfl, rfl⟩
    | exact Bool.noConfusion h
    | (simp at hf; try tauto)

/-- Claim C6 counterexample: when the very first navigation of the
check-in sequence raises, the handler runs (status FAILED, `False`
returned) but no screenshot at all is captured — the trace holds the
lone navigation attempt. -/
theorem C6_counterexample :
    (do_sign_in cfgA stAB signEnvNavExn).exnCaught = true ∧
    (do_sign_in cfgA stAB signEnvNavExn).result = false ∧
    (do_sign_in cfgA stAB signEnvNavExn).st.check_in_status = 2 ∧
    (do_sign_in cfgA stAB signEnvNavExn).trace = [BAction.navigate "https://xsijishe.com"] := by
  decide

/-- Claim C6 (amended): any exception in the check-in interaction is
caught — `do_sign_in` then returns failure with status FAILED and nothing
propagates — but the handler captures no screenshot: the only screenshots
ever taken are the two unconditional diagnostic ones around the click. -/
theorem C6_amended_failed_no_propagation (cfg : SJSConfig) (st : State) (env : SignEnv) :
    ((do_sign_in cfg st env).exnCaught = true →
      (do_sign_in cfg st env).result = false ∧
      (do_sign_in cfg st env).st.check_in_status = 2) ∧
    (∀ f, BAction.screenshot f ∈ (do_sign_in cfg st env).trace →
      f = "before_sign.png" ∨ f = "after_sign.png") := by
  have hp := signPhase2_props cfg st env
  unfold do_sign_in
  split
  next => exact ⟨fun h => ⟨rfl, rfl⟩, fun f hf => by simp at hf⟩
  next =>
    split
    next => exact ⟨fun h => ⟨rfl, rfl⟩, fun f hf => by simp at hf⟩
    next =>
      split
      next k heq =>
        refine ⟨fun h => ⟨rfl, rfl⟩, fun f hf => ?_⟩
        simp only [injectActions, List.mem_cons, List.mem_map] at hf
        rcases hf with h1 | h1 | ⟨x, hx, h1⟩
        · cases h1
        · cases h1
        · cases h1
      next heq =>
        refine ⟨fun h => hp.1 h, fun f hf => ?_⟩
        simp only [List.mem_cons, List.mem_append] at hf
        rcases hf with (h1 | h1 | h1) | h1
        · cases h1
        · cases h1
        · exact absurd h1 (by simp [injectActions])
        · exact hp.2 f h1

/-- Witness for the amended C6 at the raising environment. -/
theorem C6_amended_failed_no_propagation_witness :
    (do_sign_in cfgA stAB signEnvNavExn).result = false ∧
    (do_sign_in cfgA stAB signEnvNavExn).st.check_in_status = 2 :=
  (C6_amended_failed_no_propagation cfgA stAB signEnvNavExn).1 rfl

/-- Witness for the amended C8 at the empty-formhash environment. -/
theorem C8_amended_post_after_form_fetch_witness :
    ∃ page, envEmptyHash.formFetch = .ok page ∧
      (login cfgA (initState "xsijishe.com") envEmptyHash).st.formhash = page.formhashVal ∧
      (login cfgA (initState "xsijishe.com") envEmptyHash).st.seccodehash =
        pyReplace page.seccodeId "seccode_" "" :=
  C8_amended_post_after_form_fetch cfgA (initState "xsijishe.com") envEmptyHash (by decide)

theorem scanStats_jf_of_not_found (ts : List String) :
    ∀ acc, (∀ t ∈ ts, containsSub (pyLower t) "积分" = false) →
      (scanStats acc ts).jf = acc.jf := by
  induction ts with
  | nil => intro acc _; rfl
  | cons t rest ih =>
    intro acc h
    have ht := h t (List.mem_cons_self t rest)
    rw [scanStats, ih _ fun u hu => h u (List.mem_cons_of_mem _ hu)]
    simp only [ht, Bool.false_eq_true, if_false]
    split
    · rfl
    · split
      · rfl
      · split <;> rfl

theorem scanStats_ww_of_not_found (ts : List String) :
    ∀ acc, (∀ t ∈ ts, containsSub (pyLower t) "威望" = false) →
      (scanStats acc ts).ww = acc.ww := by
  induction ts with
  | nil => intro acc _; rfl
  | cons t rest ih =>
    intro acc h
    have ht := h t (List.mem_cons_self t rest)
    rw [scanStats, ih _ fun u hu => h u (List.mem_cons_of_mem _ hu)]
    split
    · rfl
    · simp only [ht, Bool.false_eq_true, if_false]
      split
      · rfl
      · split <;> rfl

theorem scanStats_cp_of_not_found (ts : List String) :
    ∀ acc, (∀ t ∈ ts, containsSub (pyLower t) "车票" = false) →
      (scanStats acc ts).cp = acc.cp := by
  induction ts with
  | nil => intro acc _; rfl
  | cons t rest ih =>
    intro acc h
    have ht := h t (List.mem_cons_self t rest)
    rw [scanStats, ih _ fun u hu => h u (List.mem_cons_of_mem _ hu)]
    split
    · rfl
    · split
      · rfl
      · simp only [ht, Bool.false_eq_true, if_false]
        split <;> rfl

theorem scanStats_gx_of_not_found (ts : List String) :
    ∀ acc, (∀ t ∈ ts, containsSub (pyLower t) "贡献" = false) →
      (scanStats acc ts).gx = acc.gx := by
  induction ts with
  | nil => intro acc _; rfl
  | cons t rest ih =>
    intro acc h
    have ht := h t (List.mem_cons_self t rest)
    rw [scanStats, ih _ fun u hu => h u (List.mem_cons_of_mem _ hu)]
    split
    · rfl
    · split
      · rfl
      · split
        · rfl
        · simp only [ht, Bool.false_eq_true, if_false]

theorem statsStep_eq_scan (env : InfoEnv) :
    statsStep env = scanStats unknownStats (scannedTexts env) := by
  unfold statsStep scannedTexts
  cases env.pstsTexts with
  | ok texts => rfl
  | exn m =>
    cases env.broadTexts with
    | ok texts => rfl
    | exn m2 => rfl

/-- Claim C9: each of the four keyword-scanned statistics
(points/积分, prestige/威望, tickets/车票, contribution/贡献) keeps the
"未知" sentinel when its keyword occurs in none of the texts the scan
visits (primary container scan, or fallback broad scan when locating the
container raised); the statistics step is total — both lookups raising
still yields all four sentinels, never an exception. -/
theorem C9_unknown_sentinels (env : InfoEnv) :
    ((∀ t ∈ scannedTexts env, containsSub (pyLower t) "积分" = false) →
      (statsStep env).jf = "未知") ∧
    ((∀ t ∈ scannedTexts env, containsSub (pyLower t) "威望" = false) →
      (statsStep env).ww = "未知") ∧
    ((∀ t ∈ scannedTexts env, containsSub (pyLower t) "车票" = false) →
      (statsStep env).cp = "未知") ∧
    ((∀ t ∈ scannedTexts env, containsSub (pyLower t) "贡献" = false) →
      (statsStep env).gx = "未知") := by
  rw [statsStep_eq_scan]
  exact ⟨fun h => scanStats_jf_of_not_found _ _ h,
    fun h => scanStats_ww_of_not_found _ _ h,
    fun h => scanStats_cp_of_not_found _ _ h,
    fun h => scanStats_gx_of_not_found _ _ h⟩

/-- Witness for C9: in a concrete environment whose primary scan only
contains a points entry, prestige, tickets and contribution keep the
sentinel. -/
theorem C9_unknown_sentinels_witness :
    (statsStep infoEnvA).ww = "未知" ∧
    (statsStep infoEnvA).cp = "未知" ∧
    (statsStep infoEnvA).gx = "未知" :=
  ⟨(C9_unknown_sentinels infoEnvA).2.1 (by decide),
   (C9_unknown_sentinels infoEnvA).2.2.1 (by decide),
   (C9_unknown_sentinels infoEnvA).2.2.2 (by decide)⟩

theorem signPhase2_status_lt (cfg : SJSConfig) (st : State) (env : SignEnv) :
    (signPhase2 cfg st env).st.check_in_status < 3 := by
  unfold signPhase2
  repeat' split
  all_goals simp

theorem fetch_user_info_status (st : State) (env : InfoEnv) :
    (fetch_user_info st env).2.check_in_status = 0 ∨
    (fetch_user_info st env).2.check_in_status = 1 ∨
    (fetch_user_info st env).2.check_in_status = st.check_in_status := by
  unfold fetch_user_info
  repeat' split
  all_goals first
    | (simp [check_in_labels]; done)
    | (rcases hm : check_in_labels[st.check_in_status]? with _ | lbl <;> simp [hm])

/-- Claim C10: the check-in status field always holds 0, 1 or 2 — it is
initialized to 2, every `do_sign_in` path writes 0, 1 or 2, and the
profile phase writes only 0 or 1 (it never downgrades a status to
FAILED); consequently indexing the three-label list with the status while
composing the report never goes out of range. -/
theorem C10_status_invariant :
    (∀ d, (initState d).check_in_status = 2) ∧
    (∀ cfg st env, (do_sign_in cfg st env).st.check_in_status < 3) ∧
    (∀ st env, (fetch_user_info st env).2.check_in_status = 0 ∨
      (fetch_user_info st env).2.check_in_status = 1 ∨
      (fetch_user_info st env).2.check_in_status = st.check_in_status) ∧
    (∀ st env, st.check_in_status < 3 →
      check_in_labels[(fetch_user_info st env).2.check_in_status]?.isSome) := by
  refine ⟨fun d => rfl, ?_, fetch_user_info_status, ?_⟩
  · intro cfg st env
    unfold do_sign_in
    split
    next => simp
    next =>
      split
      next => simp
      next =>
        split
        next => simp
        next => exact signPhase2_status_lt cfg st env
  · intro st env h
    have hlt : (fetch_user_info st env).2.check_in_status < 3 := by
      rcases fetch_user_info_status st env with h1 | h1 | h1 <;> omega
    interval_cases hstat : (fetch_user_info st env).2.check_in_status <;> rfl

/-- Witness for C10: indexing the label list after the profile phase at a
concrete input (initial status 2). -/
theorem C10_status_invariant_witness :
    check_in_labels[(fetch_user_info stAB infoEnvA).2.check_in_status]?.isSome :=
  C10_status_invariant.2.2.2 stAB infoEnvA (by decide)

theorem mem_dropWhile_of_mem {p : Char → Bool} :
    ∀ l : List Char, ∀ c, c ∈ l → p c = false → c ∈ l.dropWhile p := by
  intro l
  induction l with
  | nil => intro c h _; cases h
  | cons a t ih =>
    intro c hc hpc
    rw [List.dropWhile_cons]
    by_cases hp : p a = true
    · rw [if_pos hp]
      rcases List.mem_cons.mp hc with h1 | h1
      · subst h1; rw [hpc] at hp; cases hp
      · exact ih c h1 hpc
    · rw [if_neg hp]
      exact hc

theorem data_append (a b : String) : (a ++ b).data = a.data ++ b.data := by
  cases a; cases b; rfl

theorem pyStrip_ne_empty (s : String) (c : Char) (hc : c ∈ s.data)
    (hw : c.isWhitespace = false) : pyStrip s ≠ "" := by
  unfold pyStrip
  intro h
  have h2 : ((s.data.dropWhile Char.isWhitespace).reverse.dropWhile
      Char.isWhitespace).reverse = [] := congrArg String.data h
  have m1 := mem_dropWhile_of_mem s.data c hc hw
  have m2 : c ∈ (s.data.dropWhile Char.isWhitespace).reverse := List.mem_reverse.mpr m1
  have m3 := mem_dropWhile_of_mem _ c m2 hw
  have m4 : c ∈ ((s.data.dropWhile Char.isWhitespace).reverse.dropWhile
      Char.isWhitespace).reverse := List.mem_reverse.mpr m3
  rw [h2] at m4
  cases m4

theorem reportContent_ne_empty (cfg : SJSConfig) (st : State) (env : RunEnv) :
    reportContent cfg st env ≠ "" := by
  unfold reportContent reportLines
  rw [List.filter_cons, if_pos (by decide)]
  generalize List.filter _ _ = rest
  cases rest with
  | nil =>
    exact pyStrip_ne_empty _ '✔' (by decide) (by decide)
  | cons x xs =>
    apply pyStrip_ne_empty _ '✔' ?_ (by decide)
    show '✔' ∈ ("✔️ 登录成功" ++ "\n" ++ pyJoin "\n" (x :: xs)).data
    rw [data_append, data_append]
    exact List.mem_append_left _ (List.mem_append_left _ (by decide))

/-- Claim C7 counterexample: a run whose captcha-image fetch raises
inside `login()` propagates the exception out of `run()` and sends no
notification at all. -/
theorem C7_counterexample :
    run cfgA (initState "xsijishe.com") runEnvExn = (.exn "ConnectionError", []) := by
  decide

/-- Claim C7 (amended): every run that terminates normally sends exactly
one notification summarizing the outcome (one on login failure, one on
login success covering sign-in and info-fetch); but exceptions raised by
the unguarded calls (captcha image fetch or credential POST inside
`login()`, or browser startup) propagate out of `run()`, terminating the
process abnormally with no notification sent. -/
theorem C7_amended_single_notification (cfg : SJSConfig) (st0 : State) (env : RunEnv) :
    (∀ u, (run cfg st0 env).1 = .ok u → (run cfg st0 env).2.length = 1) ∧
    (∀ m, (run cfg st0 env).1 = .exn m → (run cfg st0 env).2 = []) := by
  rcases hlo : login cfg st0 env.loginEnv with ⟨res, stL, evs⟩
  cases res with
  | exn m =>
    constructor
    · intro u hu; simp [run, hlo] at hu
    · intro m2 hm; simp [run, hlo]
  | ok b =>
    cases b with
    | false =>
      constructor
      · intro u hu; simp [run, hlo]
      · intro m hm; simp [run, hlo] at hm
    | true =>
      cases hd : env.driverStart with
      | exn m =>
        constructor
        · intro u hu; simp [run, hlo, hd] at hu
        · intro m2 hm; simp [run, hlo, hd]
      | ok uu =>
        have hne := reportContent_ne_empty cfg stL env
        constructor
        · intro u hu; simp [run, hlo, hd, hne]
        · intro m hm; simp [run, hlo, hd, hne] at hm

/-- Witness for the amended C7: a fully successful concrete run sends
exactly one notification. -/
theorem C7_amended_single_notification_witness :
    (run cfgA (initState "xsijishe.com") runEnvA).2.length = 1 :=
  (C7_amended_single_notification cfgA (initState "xsijishe.com") runEnvA).1 () (by decide)

end SJS
